import Mathlib

/-!
Verification of the `asynq` processor core (`src/processor.go`) against its
natural-language specification.

The Go file defines a `processor` holding a backend handle (`rdb`), a
`Handler`, a dequeue timeout, a counting-semaphore channel `sema` of capacity
`numWorkers`, and a `done` channel. The functions modelled here are
`newProcessor`, `terminate`, `start`, `exec`, `restore` and `perform`.

Two embeddings are used:

* a *per-task effect trace* model: `exec` and the worker goroutine it spawns
  are translated into pure functions producing the list of externally visible
  effects (backend calls, log lines, semaphore operations), parameterised by
  the backend's dequeue result, the handler outcome and the values the
  mutable `TaskMessage` holds at each of the points where the Go code reads
  it;

* a *transition system* for the semaphore channel: states count cumulative
  sends by `exec` (slot acquisitions), receives by runners (slot releases)
  and sends by `terminate`'s drain loop, with guards taken from Go buffered
  channel semantics (a send blocks unless the channel length is below its
  capacity; a receive blocks unless the length is positive).
-/

namespace Asynq

/-- `rdb.TaskMessage`: the backend's wire record for a queued unit of work
(type and payload plus backend-owned metadata such as the retry count).
The Go payload `[]byte` is modelled as a `String`. -/
structure TaskMessage where
  msgType : String
  payload : String
  id : Nat
  retried : Nat
  queue : String
deriving DecidableEq, Repr

/-- `Task` (src/processor.go line 83): built from a message's type and
payload; the field `Type` is renamed `taskType` because `Type` is a Lean
keyword. -/
structure Task where
  taskType : String
  payload : String
deriving DecidableEq, Repr

/-- Outcome of one call `h.ProcessTask(task)`: the handler returns `nil`,
returns a non-nil error, or terminates abnormally with a panic value
(the value already formatted the way Go's `%v` verb would print it). -/
inductive HandlerResult where
  | ok : HandlerResult
  | err (e : String) : HandlerResult
  | panicked (x : String) : HandlerResult
deriving DecidableEq, Repr

/-- `perform` (src/processor.go lines 113-120): calls the handler; if the
call returns without panic it returns the handler's value unchanged,
otherwise it recovers and returns the error `fmt.Errorf("panic: %v", x)`.
`none` models a nil error. The Lean function is total: every handler
outcome, including a panic, yields a return value, which is how the Go
function's recover-based fault boundary behaves. -/
def perform : HandlerResult → Option String
  | .ok => none
  | .err e => some e
  | .panicked x => some ("panic: " ++ x)

/-- The externally visible effects of the processor: backend calls, log
lines and semaphore operations. -/
inductive Effect where
  | dequeueCall : Effect
  | logError (line : String) : Effect
  | acquire : Effect
  | spawn (t : Task) : Effect
  | retryCall (msg : TaskMessage) (e : String) : Effect
  | doneCall (msg : TaskMessage) : Effect
  | release : Effect
  | restoreCall : Effect
deriving DecidableEq, Repr

/-- Is this effect a call to the failure-handling collaborator `retryTask`? -/
def Effect.isRetryCall : Effect → Bool
  | .retryCall _ _ => true
  | _ => false

/-- Is this effect a call to the backend completion operation `rdb.Done`? -/
def Effect.isDoneCall : Effect → Bool
  | .doneCall _ => true
  | _ => false

/-- Effect trace of the worker goroutine spawned by `exec`
(src/processor.go lines 85-98).

`snap` is the value `*msg` holds when the goroutine begins: Go evaluates the
deferred function's argument `*msg` at the `defer` statement, so the `Done`
call receives this value-captured copy. `live` is the value the shared
message holds by the time `retryTask` dereferences the pointer `msg` it was
handed; the backend may have mutated the record in between, so `live` may
differ from `snap`. `doneErr` is the result of `p.rdb.Done`.

The goroutine body runs `perform`, calls `retryTask(p.rdb, msg, err)` when
`perform` returned an error, and then the deferred function runs: it calls
`Done` with the snapshot, logs if `Done` failed, and receives from `sema`
(releases the slot) last. -/
def runnerEffects (snap live : TaskMessage) (res : HandlerResult)
    (doneErr : Option String) : List Effect :=
  (match perform res with
    | some e => [Effect.retryCall live e]
    | none => []) ++
  Effect.doneCall snap ::
  (match doneErr with
    | some e => [Effect.logError ("could not mark task as done: " ++ e)]
    | none => []) ++
  [Effect.release]

/-- Result of `p.rdb.Dequeue(p.dequeueTimeout)`: a message, the
distinguished timeout indicator `rdb.ErrDequeueTimeout`, or any other
error. -/
inductive DequeueResult where
  | found (m : TaskMessage) : DequeueResult
  | timedOut : DequeueResult
  | dequeueErr (e : String) : DequeueResult
deriving DecidableEq, Repr

/-- Effect trace of one `exec` call (src/processor.go lines 72-99) together
with the worker goroutine it spawns. On timeout `exec` returns silently; on
any other dequeue error it logs and returns; on success it builds the task
from the message, sends on `sema` (acquires a slot), and spawns the
goroutine. `snapOf`/`liveOf` give the values of the mutable message at the
two later read points described at `runnerEffects`. -/
def execEffects (r : DequeueResult) (snapOf liveOf : TaskMessage → TaskMessage)
    (res : HandlerResult) (doneErr : Option String) : List Effect :=
  Effect.dequeueCall ::
  match r with
  | .timedOut => []
  | .dequeueErr e =>
      [Effect.logError ("unexpected error while pulling a task out of queue: " ++ e)]
  | .found m =>
      Effect.acquire :: Effect.spawn ⟨m.msgType, m.payload⟩ ::
        runnerEffects (snapOf m) (liveOf m) res doneErr

/-- `restore` (src/processor.go lines 103-108): calls
`p.rdb.RestoreUnfinished()` and, if it returned an error, logs it; the error
is not propagated. `rerr` is the result of the backend call. -/
def restoreEffects (rerr : Option String) : List Effect :=
  Effect.restoreCall ::
  match rerr with
  | some e => [Effect.logError ("could not restore unfinished tasks: " ++ e)]
  | none => []

/-- Traces producible by the dispatch loop goroutine launched in `start`
(src/processor.go lines 57-67): a sequence of `exec` iterations; the loop
exits when it receives from `done`. -/
inductive LoopEvents : List Effect → Prop where
  | stop : LoopEvents []
  | iter (r : DequeueResult) (snapOf liveOf : TaskMessage → TaskMessage)
      (res : HandlerResult) (doneErr : Option String) {t : List Effect} :
      LoopEvents t → LoopEvents (execEffects r snapOf liveOf res doneErr ++ t)

/-- `start` (src/processor.go lines 53-68): runs `restore` synchronously,
then launches the dispatch loop. The loop is launched whatever `restore`'s
backend call returned, so the trace is the restore effects followed by any
loop trace. -/
def startEffects (rerr : Option String) (loop : List Effect) : List Effect :=
  restoreEffects rerr ++ loop

/-- The `processor` struct as built by `newProcessor`
(src/processor.go lines 29-37), keeping the fields whose values the
constructor fixes: the dequeue timeout (5 seconds) and the capacity of the
semaphore channel `sema`. -/
structure Processor where
  dequeueTimeoutSec : Nat
  semaCap : Nat
deriving DecidableEq, Repr

/-- `newProcessor` (src/processor.go lines 29-37). Go's `numWorkers int` may
be negative, and `make(chan struct\x7b\x7d, numWorkers)` panics at run time
when the capacity is negative; the fault is modelled by returning `none`.
No lower bound is checked: `numWorkers = 0` constructs an unbuffered
channel. -/
def newProcessor (numWorkers : Int) : Option Processor :=
  if numWorkers < 0 then none
  else some { dequeueTimeoutSec := 5, semaCap := numWorkers.toNat }

/-!
## The semaphore channel as a transition system

`sema` is a buffered channel of capacity `N = numWorkers`. Its length is
`acquires + termSends - releases` where

* `acquires` counts the sends `p.sema <- struct\x7b\x7d` in `exec`
  (line 84), one per admitted task, each followed by spawning one runner;
* `releases` counts the receives `<-p.sema` in the runners' deferred
  functions (line 92), at most one per spawned runner;
* `termSends` counts the sends in `terminate`'s drain loop (lines 47-49),
  which runs only after the `p.done <- struct\x7b\x7d` handshake on line 43
  has been received by the dispatch loop, and makes exactly `cap(p.sema)`
  sends.

Go semantics give the guards: a send on a buffered channel blocks unless
its length is below its capacity, and a receive blocks unless the length is
positive (`releases < acquires` states that some spawned runner has not yet
released, which implies a positive length). `exec` runs only while the
dispatch loop has not yet received from `done`, so acquisition steps require
`loopStopped = false`; the `stopLoop` step is the completion of the `done`
handshake, after which the loop returns and never calls `exec` again.
-/

/-- State of the semaphore system: cumulative counts of the three kinds of
channel operation, plus whether the dispatch loop has received the stop
signal. -/
structure SemState where
  acquires : Nat
  releases : Nat
  termSends : Nat
  loopStopped : Bool
deriving DecidableEq, Repr

/-- Initial state: no operation has happened, the loop is running. -/
def SemState.init : SemState := ⟨0, 0, 0, false⟩

/-- One step of the semaphore system; see the section comment for how each
guard comes from Go channel semantics and the structure of the code. -/
inductive SemStep (N : Nat) : SemState → SemState → Prop where
  | acquire (s : SemState) :
      s.loopStopped = false →
      s.acquires + s.termSends < N + s.releases →
      SemStep N s { s with acquires := s.acquires + 1 }
  | release (s : SemState) :
      s.releases < s.acquires →
      SemStep N s { s with releases := s.releases + 1 }
  | stopLoop (s : SemState) :
      s.loopStopped = false →
      SemStep N s { s with loopStopped := true }
  | termSend (s : SemState) :
      s.loopStopped = true →
      s.termSends < N →
      s.acquires + s.termSends < N + s.releases →
      SemStep N s { s with termSends := s.termSends + 1 }

/-- States reachable from the initial state. -/
inductive Reachable (N : Nat) : SemState → Prop where
  | init : Reachable N SemState.init
  | step {s t : SemState} : Reachable N s → SemStep N s t → Reachable N t

/-- The inductive invariant of the semaphore system: each runner releases at
most once (`releases ≤ acquires`), the channel length
`acquires + termSends - releases` never exceeds the capacity, `terminate`
sends at most `N` times, and no drain send happens before the stop signal
has been received. -/
theorem sem_inv {N : Nat} {s : SemState} (h : Reachable N s) :
    s.releases ≤ s.acquires ∧ s.acquires + s.termSends ≤ N + s.releases ∧
      s.termSends ≤ N ∧ (s.loopStopped = false → s.termSends = 0) := by
  induction h with
  | init => simp [SemState.init]
  | step _ hstep ih =>
      cases hstep with
      | acquire h1 h2 => simp_all; omega
      | release h1 => simp_all; omega
      | stopLoop h1 => simp_all; omega
      | termSend h1 h2 h3 => simp_all; omega

/-- With capacity `0` (an unbuffered `sema` with no receiver ever ready: a
receiver only exists once an acquisition has succeeded, and `terminate`'s
drain loop runs `cap(p.sema) = 0` times), no channel operation other than
the stop handshake can ever happen. -/
theorem reachable_zero {s : SemState} (h : Reachable 0 s) :
    s.acquires = 0 ∧ s.releases = 0 ∧ s.termSends = 0 := by
  induction h with
  | init => simp [SemState.init]
  | step _ hstep ih =>
      cases hstep with
      | acquire h1 h2 => omega
      | release h1 => omega
      | stopLoop h1 => simpa using ih
      | termSend h1 h2 h3 => omega

/-- The runner trace never contains the crash-recovery call: `restore` is
called only from `start`, never from `exec` or a worker goroutine. -/
theorem runnerEffects_no_restore (snap live : TaskMessage) (res : HandlerResult)
    (doneErr : Option String) :
    Effect.restoreCall ∉ runnerEffects snap live res doneErr := by
  cases res <;> cases doneErr <;> simp [runnerEffects, perform]

/-- An `exec` iteration never contains the crash-recovery call. -/
theorem execEffects_no_restore (r : DequeueResult)
    (snapOf liveOf : TaskMessage → TaskMessage) (res : HandlerResult)
    (doneErr : Option String) :
    Effect.restoreCall ∉ execEffects r snapOf liveOf res doneErr := by
  cases r with
  | timedOut => simp [execEffects]
  | dequeueErr e => simp [execEffects]
  | found m =>
      simp only [execEffects, List.mem_cons]
      push_neg
      refine ⟨by simp, by simp, by simp, ?_⟩
      exact runnerEffects_no_restore _ _ _ _

/-- A dispatch-loop trace contains no crash-recovery call. -/
theorem loopEvents_no_restore {t : List Effect} (h : LoopEvents t) :
    Effect.restoreCall ∉ t := by
  induction h with
  | stop => simp
  | iter r snapOf liveOf res doneErr _ ih =>
      simp only [List.mem_append]
      push_neg
      exact ⟨execEffects_no_restore r snapOf liveOf res doneErr, ih⟩

/-- Concrete task message used in the counterexamples and witnesses. -/
def M0 : TaskMessage :=
  { msgType := "send_email", payload := "p", id := 1, retried := 0, queue := "default" }

/-- `M0` after the backend has incremented its retry count: the mutation the
spec's value-capture note is about. -/
def M1 : TaskMessage :=
  { M0 with retried := 1 }

/-- C1 (counterexample). The claim states that for a task whose handler
returns a failure the backend completion call `Done` is never made. In the
code the deferred function (src/processor.go lines 88-93) calls
`p.rdb.Done(&msg)` unconditionally, so for the concrete message `M0` whose
handler returns the error "boom" — a failing task, as the second conjunct
records — the execution trace of `exec` does contain a `Done` call for the
task, refuting the claim at this input. -/
theorem c1_counterexample :
    perform (.err "boom") = some "boom" ∧
      Effect.doneCall M0 ∈ execEffects (.found M0) id id (.err "boom") none := by
  constructor
  · rfl
  · simp [execEffects, runnerEffects, perform]

/-- C1 (amended): for every task whose handler invocation returns a failure,
`retryTask` is called exactly once with that task's message and the error —
but the backend completion call `Done` is also made, exactly once, for that
task: `Done` runs unconditionally in the runner's deferred function, for
failed tasks as well as successful ones. (`snapOf = liveOf = id` states that
the backend performs no concurrent mutation, so all calls see the dequeued
message itself.) -/
theorem c1_failed_task_retry_once_done_also (m : TaskMessage) (res : HandlerResult)
    (e : String) (doneErr : Option String) (hfail : perform res = some e) :
    (execEffects (.found m) id id res doneErr).countP Effect.isRetryCall = 1 ∧
    Effect.retryCall m e ∈ execEffects (.found m) id id res doneErr ∧
    (execEffects (.found m) id id res doneErr).countP Effect.isDoneCall = 1 ∧
    Effect.doneCall m ∈ execEffects (.found m) id id res doneErr := by
  cases doneErr <;>
    simp [execEffects, runnerEffects, hfail, Effect.isRetryCall, Effect.isDoneCall,
      List.countP_cons, List.countP_append]

/-- C1 witness: the amended theorem evaluated at the concrete failed task
`M0`. -/
theorem c1_witness :
    (execEffects (.found M0) id id (.err "boom") none).countP Effect.isRetryCall = 1 ∧
    Effect.retryCall M0 "boom" ∈ execEffects (.found M0) id id (.err "boom") none ∧
    (execEffects (.found M0) id id (.err "boom") none).countP Effect.isDoneCall = 1 ∧
    Effect.doneCall M0 ∈ execEffects (.found M0) id id (.err "boom") none :=
  c1_failed_task_retry_once_done_also M0 (.err "boom") "boom" none rfl

/-- C2 (counterexample). The claim states that the failure-handling
collaborator receives the value-captured (snapshotted) copy of the message
rather than a live reference. In the code only the deferred `Done` call
takes the message by value (`defer func(msg rdb.TaskMessage){...}(*msg)`,
src/processor.go lines 86-93); `retryTask(p.rdb, msg, err)` on line 96 is
handed the live pointer. With snapshot `M0` and the backend having mutated
the record to `M1` (retry count incremented) by the time `retryTask` reads
it, the trace contains the retry call with the mutated `M1` and no retry
call with the snapshot `M0`, refuting the claim at this input. -/
theorem c2_counterexample :
    M0 ≠ M1 ∧
    Effect.retryCall M1 "boom" ∈ runnerEffects M0 M1 (.err "boom") none ∧
    Effect.retryCall M0 "boom" ∉ runnerEffects M0 M1 (.err "boom") none := by
  refine ⟨by decide, ?_, ?_⟩ <;> simp [runnerEffects, perform, M0, M1]

/-- C2 (amended): for every failed task the failure-handling collaborator is
invoked exactly once, synchronously from within that task's runner — but the
message it receives is the live shared message (whatever value the pointer
holds when `retryTask` reads it), not the value-captured copy; the
value-captured copy is used only for the deferred `Done` call. -/
theorem c2_retry_once_with_live_message (snap live : TaskMessage)
    (res : HandlerResult) (e : String) (doneErr : Option String)
    (hfail : perform res = some e) :
    (runnerEffects snap live res doneErr).countP Effect.isRetryCall = 1 ∧
    Effect.retryCall live e ∈ runnerEffects snap live res doneErr ∧
    Effect.doneCall snap ∈ runnerEffects snap live res doneErr := by
  cases doneErr <;>
    simp [runnerEffects, hfail, Effect.isRetryCall, List.countP_cons, List.countP_append]

/-- C2 witness: the amended theorem evaluated at snapshot `M0`, live value
`M1` and a handler failing with "boom". -/
theorem c2_witness :
    (runnerEffects M0 M1 (.err "boom") none).countP Effect.isRetryCall = 1 ∧
    Effect.retryCall M1 "boom" ∈ runnerEffects M0 M1 (.err "boom") none ∧
    Effect.doneCall M0 ∈ runnerEffects M0 M1 (.err "boom") none :=
  c2_retry_once_with_live_message M0 M1 (.err "boom") "boom" none rfl

/-- C3: in every reachable state of the semaphore system with capacity `N`,
cumulative acquisitions minus cumulative releases is never negative
(`releases ≤ acquires`) and never exceeds `N` (`acquires ≤ N + releases`) —
no more than `N` runners hold a slot concurrently — and the same bound holds
with `terminate`'s drain sends included (the channel length never exceeds
the capacity fixed at construction). -/
theorem c3_sema_bounded {N : ℕ} {s : SemState} (h : Reachable N s) :
    s.releases ≤ s.acquires ∧ s.acquires ≤ N + s.releases ∧
      s.acquires + s.termSends ≤ N + s.releases := by
  have hinv := sem_inv h
  omega

/-- C3 witness: the bound evaluated at the state reached after one
acquisition in a pool of capacity 2. -/
theorem c3_witness :
    (SemState.mk 1 0 0 false).releases ≤ (SemState.mk 1 0 0 false).acquires ∧
    (SemState.mk 1 0 0 false).acquires ≤ 2 + (SemState.mk 1 0 0 false).releases ∧
    (SemState.mk 1 0 0 false).acquires + (SemState.mk 1 0 0 false).termSends ≤
      2 + (SemState.mk 1 0 0 false).releases :=
  c3_sema_bounded
    (Reachable.step Reachable.init (SemStep.acquire SemState.init rfl (by decide)))

/-- C4: `terminate` returns only once its drain loop has completed all `N`
sends, and in any reachable state where the drain has completed
(`termSends = N`) every acquisition has been matched by a release — no
runner still holds a slot and no execution is in flight. Moreover drain
sends happen only after the stop signal has been delivered to the dispatch
loop (`loopStopped = true`). -/
theorem c4_terminate_drains {N : ℕ} {s : SemState} (h : Reachable N s) :
    (s.termSends = N → s.acquires = s.releases) ∧
      (0 < s.termSends → s.loopStopped = true) := by
  have hinv := sem_inv h
  constructor
  · intro hN; omega
  · intro hpos
    rcases hb : s.loopStopped with _ | _
    · exact absurd (hinv.2.2.2 hb) (by omega)
    · rfl

/-- C4 witness: the drained state of a capacity-1 pool, reached by the stop
handshake followed by the single drain send. -/
theorem c4_witness :
    (SemState.mk 0 0 1 true).acquires = (SemState.mk 0 0 1 true).releases ∧
    (SemState.mk 0 0 1 true).loopStopped = true := by
  have r : Reachable 1 ⟨0, 0, 1, true⟩ :=
    Reachable.step (Reachable.step Reachable.init (SemStep.stopLoop SemState.init rfl))
      (SemStep.termSend ⟨0, 0, 0, true⟩ rfl (by decide) (by decide))
  exact ⟨(c4_terminate_drains r).1 rfl, (c4_terminate_drains r).2 (by decide)⟩

/-- C5: a handler that terminates abnormally is caught at the runner
boundary: `perform` converts the panic value `x` into the ordinary error
"panic: x" (first conjunct — `perform` is a total function, so the fault
never propagates out of the runner), and the runner trace contains exactly
one call to the failure-handling collaborator, carrying that error, and
exactly one slot release. -/
theorem c5_panic_isolated (snap live : TaskMessage) (x : String)
    (doneErr : Option String) :
    perform (.panicked x) = some ("panic: " ++ x) ∧
    (runnerEffects snap live (.panicked x) doneErr).countP Effect.isRetryCall = 1 ∧
    Effect.retryCall live ("panic: " ++ x) ∈ runnerEffects snap live (.panicked x) doneErr ∧
    (runnerEffects snap live (.panicked x) doneErr).count Effect.release = 1 := by
  cases doneErr <;>
    simp [runnerEffects, perform, Effect.isRetryCall, List.countP_cons, List.countP_append,
      List.count_cons, List.count_append]

/-- C6: on every execution path of a runner — success, failure or abnormal
termination, with or without a `Done` error — the slot release occurs
exactly once and is the final effect of the runner, hence it happens only
after the backend reconciliation for that task; and the reconciliation is a
guaranteed side effect of every path: the `Done` call is always present, and
whenever `perform` yields an error the failure report is present as well. -/
theorem c6_release_after_reconciliation (snap live : TaskMessage)
    (res : HandlerResult) (doneErr : Option String) :
    (runnerEffects snap live res doneErr).count Effect.release = 1 ∧
    (runnerEffects snap live res doneErr).getLast? = some Effect.release ∧
    Effect.doneCall snap ∈ runnerEffects snap live res doneErr ∧
    (∀ e, perform res = some e →
      Effect.retryCall live e ∈ runnerEffects snap live res doneErr) := by
  cases res <;> cases doneErr <;>
    simp [runnerEffects, perform, List.count_cons, List.count_append, List.getLast?]

/-- C6 witness: the ordering and guarantee conjuncts evaluated on the
failing run of task `M0`. -/
theorem c6_witness :
    (runnerEffects M0 M0 (.err "boom") none).count Effect.release = 1 ∧
    (runnerEffects M0 M0 (.err "boom") none).getLast? = some Effect.release ∧
    Effect.doneCall M0 ∈ runnerEffects M0 M0 (.err "boom") none ∧
    Effect.retryCall M0 "boom" ∈ runnerEffects M0 M0 (.err "boom") none :=
  have h := c6_release_after_reconciliation M0 M0 (.err "boom") none
  ⟨h.1, h.2.1, h.2.2.1, h.2.2.2 "boom" rfl⟩

/-- C7: for every `start`, whatever the crash-recovery call returned and
whatever the dispatch loop goes on to do, `restore`'s backend call appears
exactly once in the trace; every dequeue is strictly preceded by it (it
happens before the first fetch); and the full dispatch-loop trace is a
suffix of the start trace even when recovery failed — recovery failure is
logged but does not prevent the loop from starting. -/
theorem c7_restore_once_before_fetch (rerr : Option String) (loop : List Effect)
    (hl : LoopEvents loop) :
    (startEffects rerr loop).count Effect.restoreCall = 1 ∧
    (∀ i : ℕ, (startEffects rerr loop)[i]? = some Effect.dequeueCall →
      ∃ j, j < i ∧ (startEffects rerr loop)[j]? = some Effect.restoreCall) ∧
    List.IsSuffix loop (startEffects rerr loop) := by
  have hloop0 : loop.count Effect.restoreCall = 0 :=
    List.count_eq_zero.mpr (loopEvents_no_restore hl)
  have hhead : ∃ tail, startEffects rerr loop = Effect.restoreCall :: tail := by
    cases rerr <;> exact ⟨_, rfl⟩
  obtain ⟨tail, htail⟩ := hhead
  refine ⟨?_, ?_, ?_⟩
  · cases rerr <;>
      simp [startEffects, restoreEffects, List.count_cons, List.count_append, hloop0]
  · intro i hi
    refine ⟨0, ?_, by rw [htail]; simp⟩
    rcases i with _ | i
    · rw [htail] at hi; simp at hi
    · exact Nat.succ_pos i
  · exact ⟨restoreEffects rerr, rfl⟩

/-- C7 witness: a start whose recovery call failed with "redis down" and
whose dispatch loop ran a single timed-out iteration. -/
theorem c7_witness :
    (startEffects (some "redis down") [Effect.dequeueCall]).count Effect.restoreCall = 1 ∧
    List.IsSuffix [Effect.dequeueCall] (startEffects (some "redis down") [Effect.dequeueCall]) := by
  have hl : LoopEvents [Effect.dequeueCall] := by
    have h := LoopEvents.iter DequeueResult.timedOut id id HandlerResult.ok none LoopEvents.stop
    simpa [execEffects] using h
  have h := c7_restore_once_before_fetch (some "redis down") [Effect.dequeueCall] hl
  exact ⟨h.1, h.2.2⟩

/-- C8: a dispatch-loop iteration whose fetch timed out produces no effect
beyond the dequeue call itself — no error log, no slot acquisition, no
spawned runner, no backend call — and the loop is able to continue with any
further iterations. -/
theorem c8_timeout_noop (snapOf liveOf : TaskMessage → TaskMessage)
    (res : HandlerResult) (doneErr : Option String) :
    execEffects .timedOut snapOf liveOf res doneErr = [Effect.dequeueCall] ∧
    (∀ t : List Effect, LoopEvents t →
      LoopEvents (execEffects .timedOut snapOf liveOf res doneErr ++ t)) := by
  exact ⟨rfl, fun t ht => LoopEvents.iter .timedOut snapOf liveOf res doneErr ht⟩

/-- C8 witness: the timed-out iteration evaluated concretely, continuing the
empty loop trace. -/
theorem c8_witness :
    execEffects .timedOut id id HandlerResult.ok none = [Effect.dequeueCall] ∧
    LoopEvents (execEffects .timedOut id id HandlerResult.ok none ++ []) :=
  have h := c8_timeout_noop id id HandlerResult.ok none
  ⟨h.1, h.2 [] LoopEvents.stop⟩

/-- C9: `newProcessor` enforces no lower bound on `numWorkers`: for every
non-negative `n` the semaphore capacity equals `n` exactly and construction
with `n = 0` succeeds (the spec's precondition `numWorkers > 0` is never
checked); with capacity `0` no slot acquisition can ever succeed, so in
every reachable state no task has been admitted and no runner exists; and a
negative `numWorkers` faults at construction (`make` panics on a negative
channel capacity, modelled as `none`). -/
theorem c9_no_lower_bound :
    (∀ n : ℤ, 0 ≤ n → (newProcessor n).map Processor.semaCap = some n.toNat) ∧
    (newProcessor 0 = some ⟨5, 0⟩) ∧
    (∀ n : ℤ, n < 0 → newProcessor n = none) ∧
    (∀ s : SemState, Reachable 0 s → s.acquires = 0 ∧ s.releases = 0) := by
  refine ⟨?_, rfl, ?_, ?_⟩
  · intro n hn
    simp [newProcessor, not_lt.mpr hn]
  · intro n hn
    simp [newProcessor, hn]
  · intro s hs
    have h := reachable_zero hs
    exact ⟨h.1, h.2.1⟩

/-- C9 witness: construction at `-3` faults, construction at `0` yields
capacity `0`, and the initial state of the capacity-0 system has admitted no
task. -/
theorem c9_witness :
    newProcessor (-3) = none ∧ (newProcessor 0).map Processor.semaCap = some 0 ∧
      SemState.init.acquires = 0 :=
  ⟨c9_no_lower_bound.2.2.1 (-3) (by decide),
   c9_no_lower_bound.1 0 (by decide),
   (c9_no_lower_bound.2.2.2 SemState.init Reachable.init).1⟩

/-- C10: `perform` is total over handler outcomes: a normal return is passed
through unchanged (`nil` stays `nil`, an error stays itself), and a panic
with value `x` becomes the non-nil error whose message is exactly
"panic: " followed by `x` as `%v` formats it; being a total Lean function,
`perform` itself never panics. -/
theorem c10_perform_total :
    perform .ok = none ∧ (∀ e, perform (.err e) = some e) ∧
    (∀ x, perform (.panicked x) = some ("panic: " ++ x)) :=
  ⟨rfl, fun _ => rfl, fun _ => rfl⟩

end Asynq
